import Mathlib

/-!
Verification of the `Dialog` and `IconDialog` composite widgets from
`core/embed/rust/src/ui/model_tt/component/dialog.rs`.

The widget code itself (constructors, `place`, `event`, `paint`,
`with_description`, `new_shares`, the layout constants and the message
type) is embedded shallowly below, definition by definition, following the
Rust source.  The external collaborators that the source imports but that
are outside this core — the geometry primitives (`Rect`, `Insets`,
`LinearPlacement`), the generic component capability, the paragraph
text-flow component, the image primitive and the theme constants — are
modelled from their specified interfaces; each such definition carries a
doc comment saying so.  Machine integers (`i16` lengths) are modelled as
`Int`; all quantities involved are far from the `i16` range boundaries.
-/

/-- Modelled from the spec: the geometry primitive `Rect`, an axis-aligned
rectangle with `x0, y0` its top-left and `x1, y1` its bottom-right corner,
in abstract length units (`i16` pixels on the device, modelled as `Int`). -/
structure Rect where
  x0 : Int
  y0 : Int
  x1 : Int
  y1 : Int
deriving DecidableEq

/-- Modelled from the spec: per-edge insets used to shrink a rectangle. -/
structure Insets where
  top : Int
  right : Int
  bottom : Int
  left : Int
deriving DecidableEq

/-- Modelled from the spec: insets affecting only the top edge
(the source's `Insets::top`; named `onlyTop` because `Insets.top` is the
field projection). -/
def Insets.onlyTop (d : Int) : Insets := ⟨d, 0, 0, 0⟩

/-- Modelled from the spec: insets affecting only the bottom edge
(the source's `Insets::bottom`). -/
def Insets.onlyBottom (d : Int) : Insets := ⟨0, 0, d, 0⟩

/-- Modelled from the spec: insets affecting only the left edge
(the source's `Insets::left`). -/
def Insets.onlyLeft (d : Int) : Insets := ⟨0, 0, 0, d⟩

/-- Modelled from the spec: the all-zero rectangle used as initial area of
not-yet-placed components. -/
def Rect.zero : Rect := ⟨0, 0, 0, 0⟩

/-- Modelled from the spec: height of a rectangle. -/
def Rect.height (r : Rect) : Int := r.y1 - r.y0

/-- Modelled from the spec: the inset-by-edge operation, shrinking a
rectangle by the given amount on each edge. -/
def Rect.inset (r : Rect) (i : Insets) : Rect :=
  ⟨r.x0 + i.left, r.y0 + i.top, r.x1 - i.right, r.y1 - i.bottom⟩

/-- Modelled from the spec: the split-at-offset operation; `split_top h`
yields the top slice of height `h` and the remainder below it. -/
def Rect.split_top (r : Rect) (h : Int) : Rect × Rect :=
  (⟨r.x0, r.y0, r.x1, r.y0 + h⟩, ⟨r.x0, r.y0 + h, r.x1, r.y1⟩)

/-- Modelled from the spec: a named text style from the theme
(`theme::TEXT_NORMAL`, `theme::TEXT_MEDIUM`, …), identified abstractly. -/
structure TextStyle where
  id : Nat
deriving DecidableEq

/-- Modelled from the spec: a named color from the theme
(`theme::OFF_WHITE`, …), identified abstractly. -/
structure Color where
  id : Nat
deriving DecidableEq

/-- Modelled from the spec: the read-only theme constants consumed by this
core: border insets (`theme::borders()`), inter-control spacing
(`theme::BUTTON_SPACING`), the content border inset
(`theme::CONTENT_BORDER`), text styles, colors and the success icon bytes
(`theme::IMAGE_SUCCESS`).  Their concrete values are outside this core, so
they are fields of an abstract `Theme` record. -/
structure Theme where
  BUTTON_SPACING : Int
  CONTENT_BORDER : Int
  borders : Insets
  TEXT_NORMAL : TextStyle
  TEXT_MEDIUM : TextStyle
  OFF_WHITE : Color
  IMAGE_SUCCESS : List Nat

/-- Modelled from the spec: the stacking axis of a linear placement. -/
inductive Axis where
  | Horizontal : Axis
  | Vertical : Axis
deriving DecidableEq

/-- Modelled from the spec: the alignment of a linear placement (the
source's `Alignment`; named `Align` here because `Alignment` already
exists in the ambient library). -/
inductive Align where
  | Start : Align
  | Center : Align
  | End : Align
deriving DecidableEq

/-- Modelled from the spec: the `LinearPlacement` geometry primitive,
"vertical stacking with configurable alignment and inter-line spacing".
An option that the caller has not configured is `none`. -/
structure LinearPlacement where
  axis : Axis
  align : Option Align
  spacing : Option Int
deriving DecidableEq

/-- Modelled from the spec: `LinearPlacement::vertical()`, a vertical
placement with alignment and spacing not yet configured. -/
def LinearPlacement.vertical : LinearPlacement := ⟨Axis.Vertical, none, none⟩

/-- Modelled from the spec: `align_at_center` configures center
alignment. -/
def LinearPlacement.align_at_center (p : LinearPlacement) : LinearPlacement :=
  { p with align := some Align.Center }

/-- Modelled from the spec: `with_spacing` configures the inter-line
spacing. -/
def LinearPlacement.with_spacing (p : LinearPlacement) (s : Int) : LinearPlacement :=
  { p with spacing := some s }

/-- Modelled from the spec: one entry of the paragraph text-flow
component: a style, an optional per-entry color override, the text, and
whether the entry was marked centered by the `centered` post-processing. -/
structure Paragraph where
  style : TextStyle
  color : Option Color
  text : String
  centered : Bool
deriving DecidableEq

/-- Modelled from the spec: the paragraph text-flow component: an ordered
sequence of styled entries, a linear placement, and the last-placed
area. -/
structure Paragraphs where
  placement : LinearPlacement
  items : List Paragraph
  area : Rect
deriving DecidableEq

/-- Modelled from the spec: `Paragraphs::new()` — the empty paragraph
sequence, with a default vertical placement and zero area. -/
def Paragraphs.new : Paragraphs := ⟨LinearPlacement.vertical, [], Rect.zero⟩

/-- Modelled from the spec: `with_placement` replaces the placement. -/
def Paragraphs.with_placement (p : Paragraphs) (pl : LinearPlacement) : Paragraphs :=
  { p with placement := pl }

/-- Modelled from the spec: `add style text` appends an entry with no
color override, initially not centered. -/
def Paragraphs.add (p : Paragraphs) (s : TextStyle) (t : String) : Paragraphs :=
  { p with items := p.items ++ [⟨s, none, t, false⟩] }

/-- Modelled from the spec: `add_color style color text` appends an entry
with a per-entry color override, initially not centered. -/
def Paragraphs.add_color (p : Paragraphs) (s : TextStyle) (c : Color) (t : String) : Paragraphs :=
  { p with items := p.items ++ [⟨s, some c, t, false⟩] }

/-- Marks the last entry of a list of paragraph entries as centered. -/
def setLastCentered : List Paragraph → List Paragraph
  | [] => []
  | [q] => [{ q with centered := true }]
  | q :: q' :: qs => q :: setLastCentered (q' :: qs)

/-- Modelled from the spec: the per-entry `centered` post-processing marks
the most recently added entry as centered. -/
def Paragraphs.centered (p : Paragraphs) : Paragraphs :=
  { p with items := setLastCentered p.items }

/-- Modelled from the spec: `Paragraphs::place` records the assigned area
and reports it back. -/
def Paragraphs.place (p : Paragraphs) (r : Rect) : Paragraphs × Rect :=
  ({ p with area := r }, r)

/-- Modelled from the spec: the image primitive wrapping a static bitmap
resource (its bytes, modelled as a list), caching its placed area. -/
structure Image where
  data : List Nat
  area : Rect
deriving DecidableEq

/-- Modelled from the spec: `Image::new` wraps the bitmap bytes; the
component is not yet placed. -/
def Image.new (d : List Nat) : Image := ⟨d, Rect.zero⟩

/-- Modelled from the spec: `Image::place` records the assigned area and
reports it back. -/
def Image.place (im : Image) (r : Rect) : Image × Rect :=
  ({ im with area := r }, r)

/-- Modelled from the spec: the generic component capability.  A child
component with state `σ`, event type `ε` and message type `μ` exposes
`place` (choose a sub-rectangle of the given bounds and report it),
`event` (update state, possibly bubbling a message) and `paint` (emit a
sequence of paint actions, drawn from an abstract alphabet `α`).  The
owning `Child` wrapper of the source is modelled transparently: its
rectangle caching and repaint marking do not affect the routed messages,
chosen rectangles, or paint order, and the mutable `EventCtx` is likewise
omitted. -/
structure Component (ε σ μ α : Type) where
  place : σ → Rect → σ × Rect
  event : σ → ε → σ × Option μ
  paint : σ → List α

/-- The message type of the composites (source: `DialogMsg<T, U>`): either
a message bubbled from the content side or one bubbled from the controls
side. -/
inductive DialogMsg (T U : Type) where
  | Content : T → DialogMsg T U
  | Controls : U → DialogMsg T U
deriving DecidableEq

/-- The `Dialog<T, U>` composite state: the states of its two children
(source: fields `content` and `controls`). -/
structure Dialog (σc σk : Type) where
  content : σc
  controls : σk
deriving DecidableEq

/-- Source `Dialog::new`: wrap the two children. -/
def Dialog.new {σc σk : Type} (content : σc) (controls : σk) : Dialog σc σk :=
  ⟨content, controls⟩

/-- Source `Dialog::inner`: read-only access to the content child. -/
def Dialog.inner {σc σk : Type} (d : Dialog σc σk) : σc := d.content

/-- Source `Dialog::place`: place `controls` into `bounds` first, read the
height of the rectangle it chose, shrink `bounds` from the bottom by that
height and then by `theme::BUTTON_SPACING` and from the left by
`theme::CONTENT_BORDER`, place `content` there, and return `bounds`. -/
def Dialog.place {ε σc μc σk μk α : Type} (th : Theme) (C : Component ε σc μc α)
    (K : Component ε σk μk α) (d : Dialog σc σk) (bounds : Rect) :
    Dialog σc σk × Rect :=
  let rk := K.place d.controls bounds
  let content_area :=
    ((bounds.inset (Insets.onlyBottom rk.2.height)).inset
        (Insets.onlyBottom th.BUTTON_SPACING)).inset
      (Insets.onlyLeft th.CONTENT_BORDER)
  let rc := C.place d.content content_area
  (⟨rc.1, rk.1⟩, bounds)

/-- Source `Dialog::event`: deliver the event to `content`; if it bubbles
a message, wrap it as `Content` and stop (the `or_else` closure is not
evaluated).  Otherwise deliver the event to `controls` and wrap any
message as `Controls`. -/
def Dialog.event {ε σc μc σk μk α : Type} (C : Component ε σc μc α)
    (K : Component ε σk μk α) (d : Dialog σc σk) (e : ε) :
    Dialog σc σk × Option (DialogMsg μc μk) :=
  let rc := C.event d.content e
  match rc.2 with
  | some m => ({ d with content := rc.1 }, some (DialogMsg.Content m))
  | none =>
    let rk := K.event d.controls e
    (⟨rc.1, rk.1⟩, Option.map DialogMsg.Controls rk.2)

/-- Source `Dialog::paint`: paint `content`, then `controls`; the emitted
paint actions are the concatenation of the children's, in that order. -/
def Dialog.paint {ε σc μc σk μk α : Type} (C : Component ε σc μc α)
    (K : Component ε σk μk α) (d : Dialog σc σk) : List α :=
  C.paint d.content ++ K.paint d.controls

/-- The `IconDialog<T, U>` composite state: the icon image, the paragraph
block and the controls child (source: fields `image`, `paragraphs`,
`controls`). -/
structure IconDialog (σk : Type) where
  image : Image
  paragraphs : Paragraphs
  controls : σk
deriving DecidableEq

/-- Source `IconDialog::ICON_AREA_PADDING`. -/
def IconDialog.ICON_AREA_PADDING : Int := 2

/-- Source `IconDialog::ICON_AREA_HEIGHT`. -/
def IconDialog.ICON_AREA_HEIGHT : Int := 60

/-- Source `IconDialog::VALUE_SPACE`. -/
def IconDialog.VALUE_SPACE : Int := 5

/-- Source `IconDialog::new`: wrap the icon bytes, and build the
paragraph block with a vertical, center-aligned placement with spacing
`VALUE_SPACE`, containing the title styled `theme::TEXT_MEDIUM`,
centered. -/
def IconDialog.new {σk : Type} (th : Theme) (icon : List Nat) (title : String)
    (controls : σk) : IconDialog σk :=
  { image := Image.new icon
    paragraphs :=
      ((Paragraphs.new.with_placement
            ((LinearPlacement.vertical.align_at_center).with_spacing
              IconDialog.VALUE_SPACE)).add
          th.TEXT_MEDIUM title).centered
    controls := controls }

/-- Source `IconDialog::with_description`: if the description is
non-empty, append it as a `theme::TEXT_NORMAL`-styled,
`theme::OFF_WHITE`-colored, centered paragraph; otherwise leave the
dialog unchanged. -/
def IconDialog.with_description {σk : Type} (th : Theme) (d : IconDialog σk)
    (description : String) : IconDialog σk :=
  if ¬description.isEmpty then
    { d with
      paragraphs :=
        (d.paragraphs.add_color th.TEXT_NORMAL th.OFF_WHITE description).centered }
  else d

/-- Source `IconDialog::new_shares`: the success icon, and a vertical,
center-aligned paragraph block with four lines alternating
normal/off-white and medium styling, each centered. -/
def IconDialog.new_shares {σk : Type} (th : Theme)
    (lines : String × String × String × String) (controls : σk) : IconDialog σk :=
  match lines with
  | (l0, l1, l2, l3) =>
    { image := Image.new th.IMAGE_SUCCESS
      paragraphs :=
        ((((((((Paragraphs.new.with_placement
                        (LinearPlacement.vertical.align_at_center)).add_color
                      th.TEXT_NORMAL th.OFF_WHITE l0).centered).add
                    th.TEXT_MEDIUM l1).centered).add_color
                th.TEXT_NORMAL th.OFF_WHITE l2).centered).add
            th.TEXT_MEDIUM l3).centered
      controls := controls }

/-- Source `IconDialog::place`: shrink `bounds` by `theme::borders()` and
then from the top by `ICON_AREA_PADDING`; place `controls` into the
shrunk rectangle and read back the height it chose; shrink again from the
bottom by that height; split the result at `ICON_AREA_HEIGHT`, giving the
top slice to the image and the remainder to the paragraphs; return the
shrunk bounds. -/
def IconDialog.place {ε σk μk α : Type} (th : Theme) (K : Component ε σk μk α)
    (d : IconDialog σk) (bounds : Rect) : IconDialog σk × Rect :=
  let bounds :=
    (bounds.inset th.borders).inset (Insets.onlyTop IconDialog.ICON_AREA_PADDING)
  let rk := K.place d.controls bounds
  let content_area := bounds.inset (Insets.onlyBottom rk.2.height)
  let s := content_area.split_top IconDialog.ICON_AREA_HEIGHT
  let ri := d.image.place s.1
  let rp := d.paragraphs.place s.2
  (⟨ri.1, rp.1, rk.1⟩, bounds)

/-- Source `IconDialog::event`: deliver the event to `paragraphs` and
discard its result (the paragraph component's message type is the
uninhabited `Never`, modelled as `Empty`), then deliver it to `controls`
and wrap any message as `Controls`. -/
def IconDialog.event {ε σk μk α : Type}
    (pev : Paragraphs → ε → Paragraphs × Option Empty) (K : Component ε σk μk α)
    (d : IconDialog σk) (e : ε) : IconDialog σk × Option (DialogMsg Empty μk) :=
  let rp := pev d.paragraphs e
  let rk := K.event d.controls e
  (⟨d.image, rp.1, rk.1⟩, Option.map DialogMsg.Controls rk.2)

/-- Source `IconDialog::paint`: paint the image, then the paragraphs,
then the controls; the paint-action traces of the image and paragraph
components are abstract (`ip`, `pp`). -/
def IconDialog.paint {ε σk μk α : Type} (ip : Image → List α)
    (pp : Paragraphs → List α) (K : Component ε σk μk α) (d : IconDialog σk) :
    List α :=
  ip d.image ++ pp d.paragraphs ++ K.paint d.controls

/-- Appending a single paragraph entry and then marking the last entry
centered marks exactly the appended entry. -/
theorem setLastCentered_append (xs : List Paragraph) (q : Paragraph) :
    setLastCentered (xs ++ [q]) = xs ++ [{ q with centered := true }] := by
  induction xs with
  | nil => rfl
  | cons x xs ih =>
    cases xs with
    | nil => rfl
    | cons y ys => simpa [setLastCentered] using ih

/-- A concrete theme used to evaluate the theorems below on closed
inputs. -/
def themeX : Theme :=
  { BUTTON_SPACING := 6, CONTENT_BORDER := 5, borders := ⟨8, 8, 8, 8⟩,
    TEXT_NORMAL := ⟨0⟩, TEXT_MEDIUM := ⟨1⟩, OFF_WHITE := ⟨2⟩,
    IMAGE_SUCCESS := [1, 2] }

/-- A concrete content child whose event handler always bubbles the
message `7` and increments its state. -/
def contentSome : Component Unit Nat Nat Nat :=
  { place := fun s r => (s, r), event := fun s _ => (s + 1, some 7),
    paint := fun _ => [0] }

/-- A concrete content child whose event handler never bubbles a message
but still increments its state. -/
def contentNone : Component Unit Nat Nat Nat :=
  { place := fun s r => (s, r), event := fun s _ => (s + 1, none),
    paint := fun _ => [0] }

/-- A concrete controls child: places itself into the bottom strip of
height 48 of its bounds and always bubbles the message `9`. -/
def controls48 : Component Unit Nat Nat Nat :=
  { place := fun s r => (s, ⟨r.x0, r.y1 - 48, r.x1, r.y1⟩),
    event := fun s _ => (s + 3, some 9), paint := fun _ => [1] }

/-- A second concrete controls child, observably different from
`controls48` in state update and bubbled message. -/
def controlsAlt : Component Unit Nat Nat Nat :=
  { place := fun s r => (s, r), event := fun s _ => (s + 5, none),
    paint := fun _ => [2] }

/-- A concrete `IconDialog` instance. -/
def dIconX : IconDialog Nat := IconDialog.new themeX [3] "t" 0

/-- A concrete full-screen rectangle of height 240. -/
def bX : Rect := ⟨0, 0, 240, 240⟩

/-- C1: every event delivered to `Dialog::event` is first delivered to the
content child; if content bubbles a message `m` the call returns
`some (Content m)`, leaves the controls child untouched and does not
depend on the controls child at all (its handler is not invoked); if
content bubbles no message, controls' handler is always invoked and any
message `k` it bubbles is returned as `some (Controls k)`; if neither
bubbles a message the call returns `none`. -/
theorem dialog_event_routes_content_first {ε σc μc σk μk α : Type}
    (C : Component ε σc μc α) (K K' : Component ε σk μk α) (d : Dialog σc σk)
    (e : ε) :
    (Dialog.event C K d e).1.content = (C.event d.content e).1
    ∧ (∀ m, (C.event d.content e).2 = some m →
        (Dialog.event C K d e).2 = some (DialogMsg.Content m)
        ∧ (Dialog.event C K d e).1.controls = d.controls
        ∧ Dialog.event C K d e = Dialog.event C K' d e)
    ∧ ((C.event d.content e).2 = none →
        (Dialog.event C K d e).1.controls = (K.event d.controls e).1
        ∧ (Dialog.event C K d e).2 =
            Option.map DialogMsg.Controls (K.event d.controls e).2) := by
  refine ⟨?_, ?_, ?_⟩
  · cases h : (C.event d.content e).2 <;> simp [Dialog.event, h]
  · intro m hm
    refine ⟨?_, ?_, ?_⟩ <;> simp [Dialog.event, hm]
  · intro hn
    constructor <;> simp [Dialog.event, hn]

/-- Witness for C1: with a content child that bubbles `7`, the dialog
returns `Content 7`; with one that bubbles nothing, the controls child's
message `9` is returned as `Controls 9`. -/
theorem dialog_event_routes_content_first_witness :
    (Dialog.event contentSome controls48 (Dialog.new 0 0) ()).2 =
        some (DialogMsg.Content 7)
    ∧ (Dialog.event contentNone controls48 (Dialog.new 0 0) ()).2 =
        some (DialogMsg.Controls 9) :=
  ⟨((dialog_event_routes_content_first contentSome controls48 controlsAlt
        (Dialog.new 0 0) ()).2.1 7 rfl).1,
    by
      have h := (dialog_event_routes_content_first contentNone controls48
        controlsAlt (Dialog.new 0 0) ()).2.2 rfl
      simpa [controls48] using h.2⟩

/-- C2: every event delivered to `IconDialog::event` is always delivered
to the paragraphs child (whose state is updated) with its result
discarded; the call returns `some (Controls k)` exactly when the controls
child bubbles `k`, and `none` otherwise; and the `Content` variant of the
message type carries the uninhabited `Never` type, so every message is a
`Controls` message. -/
theorem icondialog_event_spec {ε σk μk α : Type}
    (pev : Paragraphs → ε → Paragraphs × Option Empty)
    (K : Component ε σk μk α) (d : IconDialog σk) (e : ε) :
    (IconDialog.event pev K d e).1.paragraphs = (pev d.paragraphs e).1
    ∧ (IconDialog.event pev K d e).1.controls = (K.event d.controls e).1
    ∧ (IconDialog.event pev K d e).1.image = d.image
    ∧ (IconDialog.event pev K d e).2 =
        Option.map DialogMsg.Controls (K.event d.controls e).2
    ∧ (∀ m : DialogMsg Empty μk, ∃ k, m = DialogMsg.Controls k) := by
  refine ⟨rfl, rfl, rfl, rfl, ?_⟩
  intro m
  cases m with
  | Content n => exact n.elim
  | Controls k => exact ⟨k, rfl⟩

/-- C3: `Dialog::place b` places controls first (handing it the whole of
`b`), then places content into `b` inset from the bottom by the controls'
resulting height plus `theme::BUTTON_SPACING` and from the left by
`theme::CONTENT_BORDER`, and returns `b` itself, unmodified, regardless of
the children's sizes. -/
theorem dialog_place_spec {ε σc μc σk μk α : Type} (th : Theme)
    (C : Component ε σc μc α) (K : Component ε σk μk α) (d : Dialog σc σk)
    (b : Rect) :
    Dialog.place th C K d b =
      (⟨(C.place d.content
            ⟨b.x0 + th.CONTENT_BORDER, b.y0, b.x1,
              b.y1 - ((K.place d.controls b).2.height + th.BUTTON_SPACING)⟩).1,
          (K.place d.controls b).1⟩,
        b) := by
  have harea :
      ((b.inset (Insets.onlyBottom (K.place d.controls b).2.height)).inset
          (Insets.onlyBottom th.BUTTON_SPACING)).inset
        (Insets.onlyLeft th.CONTENT_BORDER) =
      ⟨b.x0 + th.CONTENT_BORDER, b.y0, b.x1,
        b.y1 - ((K.place d.controls b).2.height + th.BUTTON_SPACING)⟩ := by
    simp [Rect.inset, Insets.onlyBottom, Insets.onlyLeft]
    omega
  simp [Dialog.place, harea]

/-- C4: `IconDialog::place b` returns `b` shrunk by the theme's border
insets and then by the fixed icon-area top padding — never the raw input
`b` (given non-negative top border); within the shrunk rectangle, controls
is placed first, the icon receives exactly the top `ICON_AREA_HEIGHT`
slice of the region left above the controls, and the paragraph block
receives the remaining space below that slice. -/
theorem icondialog_place_spec {ε σk μk α : Type} (th : Theme)
    (K : Component ε σk μk α) (d : IconDialog σk) (b : Rect)
    (h : 0 ≤ th.borders.top) :
    IconDialog.place th K d b =
      (⟨{ d.image with area :=
            ⟨b.x0 + th.borders.left,
              b.y0 + th.borders.top + IconDialog.ICON_AREA_PADDING,
              b.x1 - th.borders.right,
              b.y0 + th.borders.top + IconDialog.ICON_AREA_PADDING +
                IconDialog.ICON_AREA_HEIGHT⟩ },
          { d.paragraphs with area :=
            ⟨b.x0 + th.borders.left,
              b.y0 + th.borders.top + IconDialog.ICON_AREA_PADDING +
                IconDialog.ICON_AREA_HEIGHT,
              b.x1 - th.borders.right,
              b.y1 - th.borders.bottom -
                ((K.place d.controls ((b.inset th.borders).inset
                    (Insets.onlyTop IconDialog.ICON_AREA_PADDING))).2).height⟩ },
          (K.place d.controls ((b.inset th.borders).inset
            (Insets.onlyTop IconDialog.ICON_AREA_PADDING))).1⟩,
        (b.inset th.borders).inset (Insets.onlyTop IconDialog.ICON_AREA_PADDING))
    ∧ (IconDialog.place th K d b).2 ≠ b := by
  constructor
  · simp [IconDialog.place, Image.place, Paragraphs.place, Rect.split_top,
      Rect.inset, Insets.onlyTop, Insets.onlyBottom, Rect.height,
      IconDialog.ICON_AREA_PADDING, IconDialog.ICON_AREA_HEIGHT]
  · intro hEq
    have h2 : (IconDialog.place th K d b).2.y0 =
        b.y0 + th.borders.top + IconDialog.ICON_AREA_PADDING := by
      simp [IconDialog.place, Rect.inset, Insets.onlyTop]
    rw [hEq] at h2
    simp [IconDialog.ICON_AREA_PADDING] at h2
    omega

/-- Witness for C4: a concrete placement whose result differs from the
input rectangle. -/
theorem icondialog_place_spec_witness :
    (IconDialog.place themeX controls48 dIconX bX).2 ≠ bX :=
  (icondialog_place_spec themeX controls48 dIconX bX (by decide)).2

/-- C5: for an input rectangle of height 240, border insets of 8 on each
side, and a controls child whose placement (inside the shrunk bounds)
reports height 48, the rectangle `IconDialog::place` assigns to the
paragraph block has height exactly 240 − 2·8 − 2 − 60 − 48 = 114. -/
theorem icondialog_paragraph_height {ε σk μk α : Type} (th : Theme)
    (K : Component ε σk μk α) (d : IconDialog σk) (b : Rect)
    (hb : b.height = 240) (hth : th.borders = ⟨8, 8, 8, 8⟩)
    (hK : ((K.place d.controls ((b.inset th.borders).inset
        (Insets.onlyTop IconDialog.ICON_AREA_PADDING))).2).height = 48) :
    ((IconDialog.place th K d b).1.paragraphs.area).height = 114 := by
  simp [Rect.height, Rect.inset, Insets.onlyTop, hth,
    IconDialog.ICON_AREA_PADDING] at hb hK ⊢
  simp [IconDialog.place, Paragraphs.place, Image.place, Rect.split_top,
    Rect.inset, Insets.onlyTop, Insets.onlyBottom, Rect.height, hth,
    IconDialog.ICON_AREA_PADDING, IconDialog.ICON_AREA_HEIGHT]
  omega

/-- Witness for C5: the concrete full-screen scenario, evaluating to a
paragraph area of height 114. -/
theorem icondialog_paragraph_height_witness :
    ((IconDialog.place themeX controls48 dIconX bX).1.paragraphs.area).height
      = 114 :=
  icondialog_paragraph_height themeX controls48 dIconX bX (by decide) rfl
    (by decide)

/-- C6: `IconDialog::with_description` with an empty string leaves the
dialog (in particular the paragraph entries) unchanged; with a non-empty
string it appends exactly one paragraph entry after the existing ones,
styled `theme::TEXT_NORMAL`, colored `theme::OFF_WHITE`, and centered; it
is a total function and never fails. -/
theorem with_description_spec {σk : Type} (th : Theme) (d : IconDialog σk)
    (s : String) :
    IconDialog.with_description th d s =
      { d with paragraphs :=
          { d.paragraphs with items :=
              if s.isEmpty then d.paragraphs.items
              else d.paragraphs.items ++
                [⟨th.TEXT_NORMAL, some th.OFF_WHITE, s, true⟩] } } := by
  by_cases h : s.isEmpty
  · simp [IconDialog.with_description, h]
  · simp [IconDialog.with_description, h, Paragraphs.centered,
      Paragraphs.add_color, setLastCentered_append]

/-- C7: `IconDialog::new_shares` on any 4-element line array builds a
paragraph block of exactly 4 entries in the fixed style order
normal/off-white, medium, normal/off-white, medium, each centered, with
the theme's success image as icon. -/
theorem new_shares_spec {σk : Type} (th : Theme) (l0 l1 l2 l3 : String)
    (k : σk) :
    (IconDialog.new_shares th (l0, l1, l2, l3) k).paragraphs.items =
        [⟨th.TEXT_NORMAL, some th.OFF_WHITE, l0, true⟩,
          ⟨th.TEXT_MEDIUM, none, l1, true⟩,
          ⟨th.TEXT_NORMAL, some th.OFF_WHITE, l2, true⟩,
          ⟨th.TEXT_MEDIUM, none, l3, true⟩]
    ∧ (IconDialog.new_shares th (l0, l1, l2, l3) k).image =
        Image.new th.IMAGE_SUCCESS :=
  ⟨rfl, rfl⟩

/-- C8 counterexample: `IconDialog::new_shares` does not configure its
paragraph placement with the inter-paragraph spacing `VALUE_SPACE` — its
placement's spacing is left unconfigured — refuting the claim that every
`IconDialog` constructor configures spacing 5. -/
theorem new_shares_spacing_counterexample :
    ¬((IconDialog.new_shares themeX ("a", "b", "c", "d")
          (0 : Nat)).paragraphs.placement.spacing =
        some IconDialog.VALUE_SPACE) := by
  decide

/-- C8 amended: the layout constants are fixed at icon-area top padding 2,
icon-area height 60, inter-paragraph spacing `VALUE_SPACE` = 5;
`IconDialog::new` configures its paragraph block's vertical,
center-aligned placement with spacing `VALUE_SPACE`, while
`IconDialog::new_shares` configures a vertical, center-aligned placement
without setting the spacing. -/
theorem icondialog_constants_and_placement {σk : Type} (th : Theme)
    (icon : List Nat) (title l0 l1 l2 l3 : String) (k k' : σk) :
    IconDialog.ICON_AREA_PADDING = 2 ∧ IconDialog.ICON_AREA_HEIGHT = 60
    ∧ IconDialog.VALUE_SPACE = 5
    ∧ (IconDialog.new th icon title k).paragraphs.placement =
        ⟨Axis.Vertical, some Align.Center, some IconDialog.VALUE_SPACE⟩
    ∧ (IconDialog.new_shares th (l0, l1, l2, l3) k').paragraphs.placement =
        ⟨Axis.Vertical, some Align.Center, none⟩ :=
  ⟨rfl, rfl, rfl, rfl, rfl⟩

/-- C9: after any sequence of events (from any starting state),
`Dialog::paint` paints content then controls and `IconDialog::paint`
paints icon, then paragraphs, then controls — the emitted paint traces are
those concatenations, unconditionally. -/
theorem paint_order_invariant {ε σc μc σk μk α : Type}
    (C : Component ε σc μc α) (K : Component ε σk μk α)
    (pev : Paragraphs → ε → Paragraphs × Option Empty)
    (ip : Image → List α) (pp : Paragraphs → List α)
    (d0 : Dialog σc σk) (i0 : IconDialog σk) (es : List ε) :
    Dialog.paint C K (es.foldl (fun s e => (Dialog.event C K s e).1) d0) =
        C.paint (es.foldl (fun s e => (Dialog.event C K s e).1) d0).content ++
          K.paint (es.foldl (fun s e => (Dialog.event C K s e).1) d0).controls
    ∧ IconDialog.paint ip pp K
          (es.foldl (fun s e => (IconDialog.event pev K s e).1) i0) =
        ip (es.foldl (fun s e => (IconDialog.event pev K s e).1) i0).image ++
          pp (es.foldl (fun s e =>
            (IconDialog.event pev K s e).1) i0).paragraphs ++
          K.paint (es.foldl (fun s e =>
            (IconDialog.event pev K s e).1) i0).controls :=
  ⟨rfl, rfl⟩

/-- C10: `IconDialog::with_description` leaves the image child and the
controls child exactly as they were; only the paragraphs field can
differ. -/
theorem with_description_frame {σk : Type} (th : Theme) (d : IconDialog σk)
    (s : String) :
    (IconDialog.with_description th d s).image = d.image
    ∧ (IconDialog.with_description th d s).controls = d.controls := by
  by_cases h : s.isEmpty <;> simp [IconDialog.with_description, h]
